import Mathlib

/-!
Verification of the pulumi-aws-lambify example handlers.

This file gives a shallow embedding of the repository sources in Lean 4 and
proves the frozen claims about them.  Python strings are modelled as Lean
strings (lists of characters), Python dicts with string keys as association
lists, and fallible Python code as values of Except.  The handlers under
examples/basic/api and the shared layer examples/basic/layers/emoji are
translated function by function.

Encoding note: the packaged copy of emoji_layer.py stores its emoji string
literals double-encoded (the UTF-8 bytes of each glyph were decoded as
cp1252, losslessly except for five undefined cp1252 bytes which were
dropped).  The embedding uses the decoded glyphs, which are the ones the
design document records (for example the sad glyph and the shrug fallback).

The external collaborators named by the design document (the json
encode/decode library, the cowsay library) are modelled here as total Lean
functions; the handler code is translated verbatim against those models.
-/

set_option maxRecDepth 100000

namespace Lambify

/-! ## Python string primitives -/

/-- Whitespace characters removed by the Python str.strip method
(ASCII range, which is all the handlers exercise). -/
def isPySpace (c : Char) : Bool :=
  c == ' ' || c == '\t' || c == '\n' || c == '\r' || c == '\x0b' || c == '\x0c'

/-- Upper to lower case pairs for ASCII letters; the design document asks
for no locale-specific casing beyond the ASCII range. -/
def lowerTable : List (Char × Char) :=
  [('A', 'a'), ('B', 'b'), ('C', 'c'), ('D', 'd'), ('E', 'e'), ('F', 'f'),
   ('G', 'g'), ('H', 'h'), ('I', 'i'), ('J', 'j'), ('K', 'k'), ('L', 'l'),
   ('M', 'm'), ('N', 'n'), ('O', 'o'), ('P', 'p'), ('Q', 'q'), ('R', 'r'),
   ('S', 's'), ('T', 't'), ('U', 'u'), ('V', 'v'), ('W', 'w'), ('X', 'x'),
   ('Y', 'y'), ('Z', 'z')]

/-- Lower-casing of a single character, Python str.lower restricted to
ASCII letters. -/
def lowerChar (c : Char) : Char :=
  match lowerTable.find? (fun p => p.1 == c) with
  | some p => p.2
  | none => c

/-- Python str.lower on a whole string. -/
def pyLower (s : String) : String :=
  ⟨s.data.map lowerChar⟩

/-- Strip leading and trailing Python whitespace from a character list. -/
def stripChars (l : List Char) : List Char :=
  (l.dropWhile isPySpace).rdropWhile isPySpace

/-- Python str.strip with no argument. -/
def pyStrip (s : String) : String :=
  ⟨stripChars s.data⟩

/-- The mood normalizer used by the emoji layer: the source computes
mood.lower().strip(), that is lower-casing followed by stripping. -/
def normalize (s : String) : String :=
  pyStrip (pyLower s)

/-! ## Python dict primitives (association lists, first binding wins,
as Python dict literals have unique keys) -/

/-- Python dict.get(key, default) on a string-to-string dict. -/
def dictGet (d : List (String × String)) (k dflt : String) : String :=
  match d.find? (fun p => p.1 == k) with
  | some p => p.2
  | none => dflt

/-- Python dict.get(key) on a string-to-string dict: none when absent. -/
def dictFind? (d : List (String × String)) (k : String) : Option String :=
  (d.find? (fun p => p.1 == k)).map (fun p => p.2)

/-! ## The emoji layer (examples/basic/layers/emoji/emoji_layer.py) -/

/-- MOOD_EMOJI_MAP from emoji_layer.py, in source order. -/
def MOOD_EMOJI_MAP : List (String × String) :=
  [("happy", "😄"), ("sad", "😢"), ("angry", "😠"), ("excited", "🤩"),
   ("love", "❤️"), ("confused", "😕"), ("surprised", "😲"), ("tired", "😴"),
   ("cool", "😎"), ("worried", "😟"), ("laughing", "😂"), ("wink", "😉"),
   ("neutral", "😐"), ("thinking", "🤔"), ("celebration", "🎉"),
   ("heart_eyes", "😍"), ("crying", "😭"), ("sick", "🤒"), ("crazy", "🤪"),
   ("robot", "🤖")]

/-- The fallback glyph the layer returns for unregistered moods. -/
def FALLBACK_EMOJI : String := "🤷"

/-- Registry lookup over an arbitrary registry state: dict.get with the
fallback glyph as default. -/
def registryLookupR (reg : List (String × String)) (m : String) : String :=
  dictGet reg m FALLBACK_EMOJI

/-- Registry lookup over the fixed table of emoji_layer.py. -/
def registryLookup (m : String) : String :=
  registryLookupR MOOD_EMOJI_MAP m

/-- get_emoji_for_mood from emoji_layer.py: normalize, then look the
result up with the shrug fallback. -/
def get_emoji_for_mood (mood : String) : String :=
  registryLookup (normalize mood)

/-- Modelled from the spec: the PUT handler imports get_emoji from the
emoji layer, but no function of that name appears in the packaged sources
(the layer only defines get_emoji_for_mood).  Following the design
document, step 3 of the Write Handler looks up the current glyph for the
mood via the Registry, a total lookup with the fallback glyph, applied
after normalization. -/
def get_emojiR (reg : List (String × String)) (mood : String) : String :=
  registryLookupR reg (normalize mood)

/-- The same spec-modelled lookup over the fixed registry table. -/
def get_emoji (mood : String) : String :=
  get_emojiR MOOD_EMOJI_MAP mood

/-! ## Facts about the normalizer -/

theorem lowerChar_idem (c : Char) : lowerChar (lowerChar c) = lowerChar c := by
  cases hf : lowerTable.find? (fun p => p.1 == c) with
  | none => simp [lowerChar, hf]
  | some p =>
      have hmem : p ∈ lowerTable := List.mem_of_find?_eq_some hf
      have hall : ∀ q ∈ lowerTable, lowerTable.find? (fun r => r.1 == q.2) = none := by decide
      have hsnd := hall p hmem
      simp [lowerChar, hf, hsnd]

theorem mem_of_mem_stripChars {c : Char} {l : List Char}
    (h : c ∈ stripChars l) : c ∈ l := by
  have h1 : c ∈ l.dropWhile isPySpace :=
    (( List.rdropWhile_prefix isPySpace (l.dropWhile isPySpace)).sublist.subset) h
  exact (( List.dropWhile_suffix isPySpace).sublist.subset) h1

theorem head_not_pySpace {c : Char} {cs : List Char} {y : List Char}
    (hy : y.dropWhile isPySpace = y) (hcy : y = c :: cs) :
    isPySpace c = false := by
  by_contra hpc'
  have hpc : isPySpace c = true := by
    cases h : isPySpace c with
    | true => rfl
    | false => exact absurd h hpc'
  have h1 : y.dropWhile isPySpace = cs.dropWhile isPySpace := by
    rw [hcy, List.dropWhile_cons, hpc]
    simp
  have h2 : (cs.dropWhile isPySpace).length ≤ cs.length :=
    ( List.dropWhile_suffix isPySpace).sublist.length_le
  have h3 : y.length = cs.length + 1 := by rw [hcy]; rfl
  rw [hy] at h1
  have h4 : y.length = (cs.dropWhile isPySpace).length := by rw [h1]
  omega

theorem dropWhile_rdropWhile {y : List Char}
    (hy : y.dropWhile isPySpace = y) :
    (y.rdropWhile isPySpace).dropWhile isPySpace = y.rdropWhile isPySpace := by
  obtain ⟨t, ht⟩ := List.rdropWhile_prefix isPySpace y
  cases hz : y.rdropWhile isPySpace with
  | nil => rfl
  | cons c cs =>
      rw [hz] at ht
      have hcy : y = c :: (cs ++ t) := by rw [← ht]; rfl
      have hpc : isPySpace c = false := head_not_pySpace hy hcy
      rw [List.dropWhile_cons, hpc]
      simp

theorem stripChars_idem (l : List Char) :
    stripChars (stripChars l) = stripChars l := by
  unfold stripChars
  rw [dropWhile_rdropWhile (List.dropWhile_idempotent _ _),
    List.rdropWhile_idempotent]

theorem map_lowerChar_fixed {l : List Char}
    (h : ∀ x ∈ l, lowerChar x = x) : l.map lowerChar = l := by
  induction l with
  | nil => rfl
  | cons a l ih =>
      have ha := h a (by simp)
      have hl : ∀ x ∈ l, lowerChar x = x := fun x hx => h x (by simp [hx])
      simp [ha, ih hl]

theorem normalize_data (s : String) :
    (normalize s).data = stripChars (s.data.map lowerChar) := rfl

/-! ## Model of the json library (an external collaborator of the core
per the design document): values, decoding, encoding -/

/-- JSON values as the Python json module materialises them.  Numbers are
modelled as rationals (Python ints and floats are collapsed into one
numeric constructor; none of the handlers distinguishes them). -/
inductive Json where
  | null : Json
  | bool (b : Bool) : Json
  | num (q : ℚ) : Json
  | str (s : String) : Json
  | arr (elems : List Json) : Json
  | obj (fields : List (String × Json)) : Json

/-- JSON input whitespace. -/
def isJsonWs (c : Char) : Bool :=
  c == ' ' || c == '\t' || c == '\n' || c == '\r'

/-- Skip insignificant whitespace. -/
def skipWs (cs : List Char) : List Char :=
  cs.dropWhile isJsonWs

/-- Decode a single escape character inside a JSON string literal. -/
def escChar (e : Char) : Option Char :=
  if e == '"' then some '"'
  else if e == '\\' then some '\\'
  else if e == '/' then some '/'
  else if e == 'n' then some '\n'
  else if e == 't' then some '\t'
  else if e == 'r' then some '\r'
  else if e == 'b' then some '\x08'
  else if e == 'f' then some '\x0c'
  else none

/-- Parse the body of a JSON string literal after the opening quote,
returning the decoded string and the input after the closing quote. -/
def parseStringBody : List Char → Option (String × List Char)
  | [] => none
  | c :: cs =>
    if c == '"' then some ("", cs)
    else if c == '\\' then
      match cs with
      | [] => none
      | e :: cs2 =>
        match escChar e with
        | none => none
        | some ch =>
          match parseStringBody cs2 with
          | none => none
          | some (s, rest) => some (⟨ch :: s.data⟩, rest)
    else if c.toNat < 32 then none
    else
      match parseStringBody cs with
      | none => none
      | some (s, rest) => some (⟨c :: s.data⟩, rest)

/-- Numeric value of a decimal digit character. -/
def digVal (c : Char) : Option Nat :=
  if '0' ≤ c ∧ c ≤ '9' then some (c.toNat - 48) else none

/-- Take a maximal run of decimal digits. -/
def takeDigits : List Char → List Nat × List Char
  | [] => ([], [])
  | c :: cs =>
    match digVal c with
    | some d =>
      match takeDigits cs with
      | (ds, rest) => (d :: ds, rest)
    | none => ([], c :: cs)

/-- Natural number denoted by a digit run. -/
def natOfDigits (ds : List Nat) : Nat :=
  ds.foldl (fun a d => a * 10 + d) 0

/-- Consume an optional sign, returning true for a leading minus. -/
def takeSign : List Char → Bool × List Char
  | [] => (false, [])
  | c :: cs =>
    if c == '-' then (true, cs)
    else if c == '+' then (false, cs)
    else (false, c :: cs)

/-- Parse the optional exponent part of a JSON or Python number. -/
def parseExp (cs : List Char) : Option (Int × List Char) :=
  match cs with
  | c :: cs1 =>
    if c == 'e' || c == 'E' then
      match takeSign cs1 with
      | (neg, cs2) =>
        match takeDigits cs2 with
        | ([], _) => none
        | (ds, cs3) =>
          let n : Int := Int.ofNat (natOfDigits ds)
          some (if neg then -n else n, cs3)
    else some (0, c :: cs1)
  | [] => some (0, [])

/-- Parse digits, an optional fractional part and an optional exponent
into a rational together with the remaining input.  Fails when neither an
integer part nor a fractional part is present. -/
def parseNumTail (cs : List Char) : Option (ℚ × List Char) :=
  match takeDigits cs with
  | (ip, cs1) =>
    match cs1 with
    | '.' :: cs2 =>
      match takeDigits cs2 with
      | (fp, cs3) =>
        if ip.isEmpty ∧ fp.isEmpty then none
        else
          match parseExp cs3 with
          | none => none
          | some (e, cs4) =>
            let base : ℚ :=
              (natOfDigits ip : ℚ) + (natOfDigits fp : ℚ) / ((10 : ℚ) ^ fp.length)
            some (base * (10 : ℚ) ^ e, cs4)
    | _ =>
      if ip.isEmpty then none
      else
        match parseExp cs1 with
        | none => none
        | some (e, cs2) => some ((natOfDigits ip : ℚ) * (10 : ℚ) ^ e, cs2)

/-- Match a literal word at the head of the input. -/
def stripLit : List Char → List Char → Option (List Char)
  | [], cs => some cs
  | _ :: _, [] => none
  | l :: ls, c :: cs => if l == c then stripLit ls cs else none

mutual

/-- Parse one JSON value (fuel-bounded recursive descent). -/
def parseVal : Nat → List Char → Option (Json × List Char)
  | 0, _ => none
  | fuel + 1, cs =>
    match skipWs cs with
    | [] => none
    | c :: rest =>
      if c == '"' then
        match parseStringBody rest with
        | none => none
        | some (s, r) => some (Json.str s, r)
      else if c == Char.ofNat 123 then
        match skipWs rest with
        | [] => none
        | c2 :: rest2 =>
          if c2 == Char.ofNat 125 then some (Json.obj [], rest2)
          else
            match parseFields fuel (c2 :: rest2) with
            | none => none
            | some (fs, r) => some (Json.obj fs, r)
      else if c == '[' then
        match skipWs rest with
        | [] => none
        | c2 :: rest2 =>
          if c2 == ']' then some (Json.arr [], rest2)
          else
            match parseItems fuel (c2 :: rest2) with
            | none => none
            | some (xs, r) => some (Json.arr xs, r)
      else
        match stripLit ('t' :: 'r' :: 'u' :: 'e' :: []) (c :: rest) with
        | some r => some (Json.bool true, r)
        | none =>
          match stripLit ('f' :: 'a' :: 'l' :: 's' :: 'e' :: []) (c :: rest) with
          | some r => some (Json.bool false, r)
          | none =>
            match stripLit ('n' :: 'u' :: 'l' :: 'l' :: []) (c :: rest) with
            | some r => some (Json.null, r)
            | none =>
              match takeSign (c :: rest) with
              | (neg, cs1) =>
                if cs1.length < (c :: rest).length ∧ ¬ neg then none
                else
                  match parseNumTail cs1 with
                  | none => none
                  | some (q, r) => some (Json.num (if neg then -q else q), r)

/-- Parse the members of a JSON object after the opening brace, when the
object is known to be non-empty. -/
def parseFields : Nat → List Char → Option (List (String × Json) × List Char)
  | 0, _ => none
  | fuel + 1, cs =>
    match skipWs cs with
    | [] => none
    | c :: rest =>
      if c == '"' then
        match parseStringBody rest with
        | none => none
        | some (k, r1) =>
          match skipWs r1 with
          | [] => none
          | c2 :: r2 =>
            if c2 == ':' then
              match parseVal fuel r2 with
              | none => none
              | some (v, r3) =>
                match skipWs r3 with
                | [] => none
                | c3 :: r4 =>
                  if c3 == ',' then
                    match parseFields fuel r4 with
                    | none => none
                    | some (fs, r) => some ((k, v) :: fs, r)
                  else if c3 == Char.ofNat 125 then some ([(k, v)], r4)
                  else none
            else none
      else none

/-- Parse the items of a JSON array after the opening bracket, when the
array is known to be non-empty. -/
def parseItems : Nat → List Char → Option (List Json × List Char)
  | 0, _ => none
  | fuel + 1, cs =>
    match parseVal fuel cs with
    | none => none
    | some (v, r1) =>
      match skipWs r1 with
      | [] => none
      | c :: r2 =>
        if c == ',' then
          match parseItems fuel r2 with
          | none => none
          | some (xs, r) => some (v :: xs, r)
        else if c == ']' then some ([v], r2)
        else none

end

/-- Model of json.loads: parse one JSON document, requiring only
whitespace after it.  none corresponds to json.JSONDecodeError. -/
def jsonLoads (s : String) : Option Json :=
  match parseVal (s.data.length + 1) s.data with
  | none => none
  | some (v, rest) =>
    match skipWs rest with
    | [] => some v
    | _ :: _ => none

/-- Digits of the fractional part of a non-negative rational below one,
bounded by a digit budget (Python float strings never need more than 17
significant digits). -/
def fracDigits : Nat → ℚ → String
  | 0, _ => ""
  | n + 1, q =>
    if q = 0 then ("")
    else
      let q10 := q * 10
      let d : ℤ := ⌊q10⌋
      toString d ++ fracDigits n (q10 - (d : ℚ))

/-- Model of str applied to a Python float: sign, integer part, decimal
point and fractional digits, with a trailing zero for integral values. -/
def pyFloatRepr (q : ℚ) : String :=
  let sign := if q < 0 then ("-") else ("")
  let a := |q|
  let ip : ℤ := ⌊a⌋
  let ds := fracDigits 17 (a - (ip : ℚ))
  sign ++ toString ip ++ "." ++ (if ds = "" then ("0") else ds)

/-- Parse the text accepted by the Python float constructor: optional
surrounding whitespace, optional sign, digits with an optional fractional
part and an optional exponent. -/
def parsePyFloat (s : String) : Option ℚ :=
  match takeSign (stripChars s.data) with
  | (neg, cs1) =>
    match parseNumTail cs1 with
    | none => none
    | some (q, rest) =>
      match rest with
      | [] => some (if neg then -q else q)
      | _ :: _ => none

/-- Model of the Python float constructor applied to a path parameter:
the handler passes the int 0 when the parameter is absent, and the raw
string otherwise.  The error carries str of the raised ValueError. -/
def pyFloat (v : Option String) : Except String ℚ :=
  match v with
  | none => Except.ok 0
  | some s =>
    match parsePyFloat s with
    | some q => Except.ok q
    | none =>
      Except.error ("could not convert string to float: \x27" ++ s ++ "\x27")

/-- Model of str applied to the Python value a JSON document decoded to,
as interpolated by the f-strings of the handlers. -/
def pyStr : Json → String
  | Json.null => "None"
  | Json.bool true => "True"
  | Json.bool false => "False"
  | Json.num q => pyFloatRepr q
  | Json.str s => s
  | Json.arr _ => "[...]"
  | Json.obj _ => "\x7b...\x7d"

/-- Escape one character for a JSON string literal, as json.dumps does
(the model emits non-ASCII characters verbatim). -/
def escapeJsonChar (c : Char) : String :=
  if c == '"' then ("\\\"")
  else if c == '\\' then ("\\\\")
  else if c == '\n' then ("\\n")
  else if c == '\t' then ("\\t")
  else if c == '\r' then ("\\r")
  else if c == '\x08' then ("\\b")
  else if c == '\x0c' then ("\\f")
  else String.singleton c

/-- Serialize a string as a JSON string literal. -/
def dumpStr (s : String) : String :=
  "\"" ++ String.join (s.data.map escapeJsonChar) ++ "\""

mutual

/-- Model of json.dumps with its default separators. -/
def jsonDumps : Json → String
  | Json.null => "null"
  | Json.bool true => "true"
  | Json.bool false => "false"
  | Json.num q => pyFloatRepr q
  | Json.str s => dumpStr s
  | Json.arr xs => "[" ++ dumpList xs ++ "]"
  | Json.obj fs => "\x7b" ++ dumpFields fs ++ "\x7d"

/-- Comma-separated serialization of array items. -/
def dumpList : List Json → String
  | [] => ""
  | [x] => jsonDumps x
  | x :: y :: xs => jsonDumps x ++ ", " ++ dumpList (y :: xs)

/-- Comma-separated serialization of object members. -/
def dumpFields : List (String × Json) → String
  | [] => ""
  | [kv] => dumpStr kv.1 ++ ": " ++ jsonDumps kv.2
  | kv :: kv2 :: fs => dumpStr kv.1 ++ ": " ++ jsonDumps kv.2 ++ ", " ++ dumpFields (kv2 :: fs)

end

/-- Python dict.get on a decoded JSON object (json.loads keeps the last
binding when an input object repeats a key). -/
def objGet (fs : List (String × Json)) (k : String) : Option Json :=
  (fs.reverse.find? (fun p => p.1 == k)).map (fun p => p.2)

/-- Python truthiness of a decoded JSON value. -/
def jsonTruthy : Json → Bool
  | Json.null => false
  | Json.bool b => b
  | Json.num q => if q = 0 then false else true
  | Json.str s => !s.isEmpty
  | Json.arr xs => !xs.isEmpty
  | Json.obj fs => !fs.isEmpty

/-- Python truthiness of dict.get output (None when the key is absent). -/
def pyTruthy : Option Json → Bool
  | none => false
  | some j => jsonTruthy j

/-! ## Events, responses and escaping Python exceptions -/

/-- Exceptions that can escape a handler in this codebase.  An
AttributeError arises from calling a dict method on None or on a decoded
non-dict JSON value; a TypeError arises from json.loads applied to None. -/
inductive PyError where
  | attributeError : PyError
  | typeError : PyError
deriving DecidableEq

/-- The handler event.  Each field distinguishes an absent key (none),
a key bound to None (some none) and a key bound to a well-typed value
(some (some v)): pathParameters is a string-to-string dict and body a
string when present, matching the request shape of the design document. -/
structure Event where
  pathParameters : Option (Option (List (String × String)))
  body : Option (Option String)

/-- The response dict a handler returns: statusCode, an optional headers
dict (one error branch in the sources omits the key) and a body string. -/
structure Response where
  statusCode : Nat
  headers : Option (List (String × String))
  body : String
deriving DecidableEq

/-- Evaluation of the chained gets the handlers use to read one path
parameter with a default: an absent pathParameters key falls back to the
empty dict, a None value raises AttributeError on the inner get. -/
def getPathParam (e : Event) (k dflt : String) : Except PyError String :=
  match e.pathParameters with
  | none => Except.ok dflt
  | some none => Except.error PyError.attributeError
  | some (some d) => Except.ok (dictGet d k dflt)

/-- Evaluation of the string handed to json.loads by the body-reading
handlers: event.get with the literal two-character object text as
default; a body bound to None raises TypeError inside json.loads, which
no handler catches. -/
def getBodyStr (e : Event) : Except PyError String :=
  match e.body with
  | none => Except.ok ("\x7b\x7d")
  | some none => Except.error PyError.typeError
  | some (some s) => Except.ok s

/-- The string json.loads receives once known not to raise (absent key
defaults to the empty object text). -/
def pyEffectiveBody (e : Event) : String :=
  match e.body with
  | some (some s) => s
  | _ => "\x7b\x7d"

/-- The Content-Type headers dict shared by the JSON handlers. -/
def ctJson : List (String × String) :=
  [("Content-Type", "application/json")]

/-- True exactly when the handler invocation produced a response rather
than letting an exception escape. -/
def returnsResponse (r : Except PyError Response) : Bool :=
  match r with
  | Except.ok _ => true
  | Except.error _ => false

/-! ## The handlers -/

/-- The 400 response of the PUT emoji handler for an undecodable body. -/
def invalidJsonResp : Response :=
  ⟨400, some ctJson,
    jsonDumps (Json.obj [("error", Json.str ("Invalid JSON in request body"))])⟩

/-- The 400 response of the PUT emoji handler for a body without a truthy
emoji member. -/
def missingEmojiResp : Response :=
  ⟨400, some ctJson,
    jsonDumps (Json.obj
      [("error", Json.str ("Missing \x27emoji\x27 field in request body"))])⟩

/-- The 200 response of the PUT emoji handler. -/
def putOkResp (mood current : String) (ce : Json) : Response :=
  ⟨200, some ctJson,
    jsonDumps (Json.obj
      [("mood", Json.str mood),
       ("previous_emoji", Json.str current),
       ("updated_emoji", ce),
       ("message", Json.str ("Emoji for \x27" ++ mood ++ "\x27 updated from ("
          ++ current ++ ") to (" ++ pyStr ce)),
       (")method", Json.str ("PUT"))])⟩

/-- handler from api/emoji/(mood)/put/handler.py, over an arbitrary
registry state. -/
def putEmojiHandlerR (reg : List (String × String)) (e : Event) :
    Except PyError Response :=
  match getPathParam e ("mood") "neutral" with
  | Except.error err => Except.error err
  | Except.ok mood =>
    match getBodyStr e with
    | Except.error err => Except.error err
    | Except.ok bodyStr =>
      match jsonLoads bodyStr with
      | none => Except.ok invalidJsonResp
      | some (Json.obj fs) =>
        match objGet fs ("emoji") with
        | some ce =>
          if jsonTruthy ce then
            Except.ok (putOkResp mood (get_emojiR reg mood) ce)
          else Except.ok missingEmojiResp
        | none => Except.ok missingEmojiResp
      | some _ => Except.error PyError.attributeError

/-- The PUT emoji handler over the registry of emoji_layer.py. -/
def putEmojiHandler (e : Event) : Except PyError Response :=
  putEmojiHandlerR MOOD_EMOJI_MAP e

/-- lambda_handler from api/emoji/(mood)/handler.py, over an arbitrary
registry state. -/
def emojiGetHandlerR (reg : List (String × String)) (e : Event) :
    Except PyError Response :=
  match getPathParam e ("mood") "neutral" with
  | Except.error err => Except.error err
  | Except.ok mood =>
    Except.ok ⟨200, some ctJson,
      "\x7b\"mood\": \"" ++ mood ++ "\", \"emoji\": \""
        ++ registryLookupR reg (normalize mood) ++ "\"\x7d"⟩

/-- The GET emoji handler over the registry of emoji_layer.py. -/
def emojiGetHandler (e : Event) : Except PyError Response :=
  emojiGetHandlerR MOOD_EMOJI_MAP e

/-- lambda_handler from api/hello/(user)/handler.py. -/
def helloGetHandler (e : Event) : Except PyError Response :=
  match getPathParam e ("user") "Anonymous" with
  | Except.error err => Except.error err
  | Except.ok user =>
    Except.ok ⟨200, some ctJson,
      "\x7b\"message\": \"Hello, " ++ user ++ "!\"\x7d"⟩

/-- The 400 response of the hello POST handler; its dict literal in the
sources has no headers key. -/
def helloPostInvalidResp : Response :=
  ⟨400, none,
    jsonDumps (Json.obj [("error", Json.str ("Invalid JSON in request body"))])⟩

/-- The custom message the hello POST handler reads from the decoded
body dict, with its default. -/
def helloMsg (fs : List (String × Json)) : String :=
  match objGet fs ("message") with
  | some v => pyStr v
  | none => "Hello"

/-- The 201 response of the hello POST handler. -/
def helloPostOkResp (user msg : String) : Response :=
  ⟨201, some ctJson,
    jsonDumps (Json.obj
      [("user", Json.str user),
       ("greeting", Json.str (msg ++ ", " ++ user ++ "! Thanks for posting.")),
       ("method", Json.str ("POST"))])⟩

/-- handler from api/hello/(user)/post/handler.py. -/
def helloPostHandler (e : Event) : Except PyError Response :=
  match getPathParam e ("user") "Anonymous" with
  | Except.error err => Except.error err
  | Except.ok user =>
    match getBodyStr e with
    | Except.error err => Except.error err
    | Except.ok bodyStr =>
      match jsonLoads bodyStr with
      | none => Except.ok helloPostInvalidResp
      | some (Json.obj fs) => Except.ok (helloPostOkResp user (helloMsg fs))
      | some _ => Except.error PyError.attributeError

/-- The value path_params.get(k) yields for the arithmetic handler, when
path_params did not raise (absent parameters fall back to the int 0
inside pyFloat). -/
def paramOrNone (e : Event) (k : String) : Option String :=
  match e.pathParameters with
  | some (some d) => dictFind? d k
  | _ => none

/-- The 400 response of the arithmetic handler, embedding str of the
caught exception. -/
def addErrResp (msg : String) : Response :=
  ⟨400, some ctJson,
    "\x7b\"error\": \"Invalid numbers provided: " ++ msg ++ "\"\x7d"⟩

/-- The 200 response of the arithmetic handler. -/
def addOkResp (a b : ℚ) : Response :=
  ⟨200, some ctJson,
    "\x7b\"a\": " ++ pyFloatRepr a ++ ", \"b\": " ++ pyFloatRepr b
      ++ ", \"result\": " ++ pyFloatRepr (a + b) ++ "\x7d"⟩

/-- lambda_handler from api/add/[a]/[b]/handler.py.  The try block
converts ValueError and TypeError into a 400 response; the
AttributeError raised by get on a None path_params is not in the except
clause and escapes. -/
def addHandler (e : Event) : Except PyError Response :=
  match e.pathParameters with
  | some none => Except.error PyError.attributeError
  | _ =>
    match pyFloat (paramOrNone e ("a")) with
    | Except.error msg => Except.ok (addErrResp msg)
    | Except.ok a =>
      match pyFloat (paramOrNone e ("b")) with
      | Except.error msg => Except.ok (addErrResp msg)
      | Except.ok b => Except.ok (addOkResp a b)

/-- Model of the external cowsay library: a total text-stamping function
wrapping the message, per the design document. -/
def cowsayOutputString (animal text : String) : String :=
  "< " ++ text ++ " >\n        \\   ^__^ " ++ animal

/-- lambda_handler from api/cow/(text)/handler.py. -/
def cowHandler (e : Event) : Except PyError Response :=
  match getPathParam e ("text") "Hello World!" with
  | Except.error err => Except.error err
  | Except.ok text =>
    Except.ok ⟨200, some [("Content-Type", "text/plain")],
      cowsayOutputString ("cow") text⟩

/-! ## Stateful forms: each handler as a transformer of the module-level
registry table.  No handler body assigns to MOOD_EMOJI_MAP, so the
translation of each one returns the incoming table unchanged. -/

/-- The PUT emoji handler with the registry threaded as state. -/
def putEmojiHandlerS (reg : List (String × String)) (e : Event) :
    Except PyError Response × List (String × String) :=
  (putEmojiHandlerR reg e, reg)

/-- The GET emoji handler with the registry threaded as state. -/
def emojiGetHandlerS (reg : List (String × String)) (e : Event) :
    Except PyError Response × List (String × String) :=
  (emojiGetHandlerR reg e, reg)

/-- The hello GET handler with the registry threaded as state (its module
never references the table). -/
def helloGetHandlerS (reg : List (String × String)) (e : Event) :
    Except PyError Response × List (String × String) :=
  (helloGetHandler e, reg)

/-- The hello POST handler with the registry threaded as state. -/
def helloPostHandlerS (reg : List (String × String)) (e : Event) :
    Except PyError Response × List (String × String) :=
  (helloPostHandler e, reg)

/-- The arithmetic handler with the registry threaded as state. -/
def addHandlerS (reg : List (String × String)) (e : Event) :
    Except PyError Response × List (String × String) :=
  (addHandler e, reg)

/-- The cowsay handler with the registry threaded as state. -/
def cowHandlerS (reg : List (String × String)) (e : Event) :
    Except PyError Response × List (String × String) :=
  (cowHandler e, reg)

/-! ## Helper lemmas -/

theorem dictGet_cases (d : List (String × String)) (k dflt : String) :
    dictGet d k dflt = dflt ∨ dictGet d k dflt ∈ d.map Prod.snd := by
  unfold dictGet
  cases hf : d.find? (fun p => p.1 == k) with
  | none => exact Or.inl rfl
  | some p =>
      right
      exact List.mem_map.mpr ⟨p, List.mem_of_find?_eq_some hf, rfl⟩

/-- The raw mood string the GET and PUT emoji handlers extract, for events
whose pathParameters key is absent or bound to a dict. -/
def rawMood (e : Event) : String :=
  match e.pathParameters with
  | some (some d) => dictGet d ("mood") ("neutral")
  | _ => "neutral"

/-- Decidable check that a body string either fails to decode or decodes
to a JSON object; on any other decoded value the body-reading handlers
raise an AttributeError. -/
def loadsObjOrFails (s : String) : Bool :=
  match jsonLoads s with
  | some (Json.obj _) => true
  | none => true
  | some _ => false

instance {ε α : Type} [DecidableEq ε] [DecidableEq α] :
    DecidableEq (Except ε α) := fun a b =>
  match a, b with
  | Except.ok x, Except.ok y =>
    if h : x = y then isTrue (by rw [h]) else
      isFalse (by intro hc; injection hc; contradiction)
  | Except.error x, Except.error y =>
    if h : x = y then isTrue (by rw [h]) else
      isFalse (by intro hc; injection hc; contradiction)
  | Except.ok _, Except.error _ => isFalse (by intro hc; cases hc)
  | Except.error _, Except.ok _ => isFalse (by intro hc; cases hc)

/-- The emoji-field dispatch of the PUT emoji handler once the body has
decoded to a JSON object. -/
def putBodyCase (m c : String) (fs : List (String × Json)) :
    Except PyError Response :=
  match objGet fs ("emoji") with
  | some ce =>
    if jsonTruthy ce then Except.ok (putOkResp m c ce)
    else Except.ok missingEmojiResp
  | none => Except.ok missingEmojiResp

/-- The decoded-body dispatch of the PUT emoji handler. -/
def putDispatch (m c : String) (o : Option Json) : Except PyError Response :=
  match o with
  | none => Except.ok invalidJsonResp
  | some (Json.obj fs) => putBodyCase m c fs
  | some _ => Except.error PyError.attributeError

/-- The PUT emoji handler, rewritten as a single dispatch on the decoded
body, for events whose fields are absent or well typed. -/
theorem putEmojiHandler_eq (e : Event) (hp : e.pathParameters ≠ some none)
    (hb : e.body ≠ some none) :
    putEmojiHandler e =
      putDispatch (rawMood e) (get_emoji (rawMood e))
        (jsonLoads (pyEffectiveBody e)) := by
  obtain ⟨pp, bd⟩ := e
  cases pp with
  | none =>
      cases bd with
      | none => rfl
      | some ob =>
          cases ob with
          | none => exact absurd rfl hb
          | some s => rfl
  | some od =>
      cases od with
      | none => exact absurd rfl hp
      | some d =>
          cases bd with
          | none => rfl
          | some ob =>
              cases ob with
              | none => exact absurd rfl hb
              | some s => rfl

theorem putOk_statusCode (m c : String) (ce : Json) :
    (putOkResp m c ce).statusCode = 200 := rfl

theorem putOk_ne_invalid (m c : String) (ce : Json) :
    putOkResp m c ce ≠ invalidJsonResp := by
  intro h
  have h2 : (200 : Nat) = 400 := congrArg Response.statusCode h
  exact absurd h2 (by decide)

theorem putOk_ne_missing (m c : String) (ce : Json) :
    putOkResp m c ce ≠ missingEmojiResp := by
  intro h
  have h2 : (200 : Nat) = 400 := congrArg Response.statusCode h
  exact absurd h2 (by decide)

theorem missing_ne_invalid : missingEmojiResp ≠ invalidJsonResp := by decide

/-! ## Claims -/

/-- Claim C6: for every mood string, registered or not, lookup after
normalization returns a non-empty glyph; unknown moods resolve to the
fixed fallback, so the lookup is total and never fails. -/
theorem C6_lookup_total (m : String) :
    0 < (registryLookup (normalize m)).length := by
  have h := dictGet_cases MOOD_EMOJI_MAP (normalize m) FALLBACK_EMOJI
  unfold registryLookup registryLookupR
  rcases h with h | h
  · rw [h]; decide
  · have hall : ∀ v ∈ MOOD_EMOJI_MAP.map Prod.snd, 0 < v.length := by decide
    exact hall _ h

/-- Witness for C6 at a mood absent from the registry. -/
theorem C6_lookup_total_witness :
    0 < (registryLookup (normalize ("not-a-real-mood"))).length :=
  C6_lookup_total ("not-a-real-mood")

/-- Claim C9: the normalizer (lower-case, then strip surrounding
whitespace) is idempotent. -/
theorem C9_normalize_idem (m : String) :
    normalize (normalize m) = normalize m := by
  apply String.ext
  have hfix : ∀ x ∈ stripChars (m.data.map lowerChar), lowerChar x = x := by
    intro x hx
    obtain ⟨a, _, ha⟩ := List.mem_map.mp (mem_of_mem_stripChars hx)
    rw [← ha, lowerChar_idem]
  calc (normalize (normalize m)).data
      = stripChars ((normalize m).data.map lowerChar) := normalize_data _
    _ = stripChars ((stripChars (m.data.map lowerChar)).map lowerChar) := rfl
    _ = stripChars (stripChars (m.data.map lowerChar)) := by
          rw [map_lowerChar_fixed hfix]
    _ = stripChars (m.data.map lowerChar) := stripChars_idem _
    _ = (normalize m).data := (normalize_data m).symm

/-- Witness for C9 at a concrete mixed-case, padded string. -/
theorem C9_normalize_idem_witness :
    normalize (normalize (" Happy \n")) = normalize (" Happy \n") :=
  C9_normalize_idem (" Happy \n")

/-- Claim C7: no handler invocation mutates the registry table; every
handler, run as a transformer of the module-level mood-to-emoji table,
returns the table it was given, whatever the event. -/
theorem C7_no_registry_mutation (reg : List (String × String)) (e : Event) :
    (emojiGetHandlerS reg e).2 = reg ∧ (putEmojiHandlerS reg e).2 = reg
    ∧ (helloGetHandlerS reg e).2 = reg ∧ (helloPostHandlerS reg e).2 = reg
    ∧ (addHandlerS reg e).2 = reg ∧ (cowHandlerS reg e).2 = reg :=
  ⟨rfl, rfl, rfl, rfl, rfl, rfl⟩

/-- Witness for C7 at the shipped registry table and a concrete event. -/
theorem C7_no_registry_mutation_witness :
    (emojiGetHandlerS MOOD_EMOJI_MAP ⟨none, none⟩).2 = MOOD_EMOJI_MAP
    ∧ (putEmojiHandlerS MOOD_EMOJI_MAP ⟨none, none⟩).2 = MOOD_EMOJI_MAP
    ∧ (helloGetHandlerS MOOD_EMOJI_MAP ⟨none, none⟩).2 = MOOD_EMOJI_MAP
    ∧ (helloPostHandlerS MOOD_EMOJI_MAP ⟨none, none⟩).2 = MOOD_EMOJI_MAP
    ∧ (addHandlerS MOOD_EMOJI_MAP ⟨none, none⟩).2 = MOOD_EMOJI_MAP
    ∧ (cowHandlerS MOOD_EMOJI_MAP ⟨none, none⟩).2 = MOOD_EMOJI_MAP :=
  C7_no_registry_mutation MOOD_EMOJI_MAP ⟨none, none⟩

/-- Claim C10: when the body key is absent, the PUT emoji handler works on
the empty JSON object text and therefore returns the missing-field 400
response, which is not the invalid-JSON 400 response. -/
theorem C10_absent_body (e : Event) (hb : e.body = none)
    (hp : e.pathParameters ≠ some none) :
    putEmojiHandler e = Except.ok missingEmojiResp
    ∧ missingEmojiResp ≠ invalidJsonResp := by
  refine ⟨?_, missing_ne_invalid⟩
  obtain ⟨pp, bd⟩ := e
  cases hb
  cases pp with
  | none => rfl
  | some od =>
      cases od with
      | none => exact absurd rfl hp
      | some d => rfl

/-- Witness for C10 at the event with no keys at all. -/
theorem C10_absent_body_witness :
    putEmojiHandler ⟨none, none⟩ = Except.ok missingEmojiResp
    ∧ missingEmojiResp ≠ invalidJsonResp :=
  C10_absent_body ⟨none, none⟩ rfl (by decide)

/-- Claim C4: the GET emoji handler always answers 200 with a JSON body
reporting the raw mood and the glyph obtained by normalize-then-lookup;
an absent path parameter is reported as the default neutral mood. -/
theorem C4_read_handler (e : Event) (hp : e.pathParameters ≠ some none) :
    emojiGetHandler e = Except.ok ⟨200, some ctJson,
      "\x7b\"mood\": \"" ++ rawMood e ++ "\", \"emoji\": \""
        ++ registryLookup (normalize (rawMood e)) ++ "\"\x7d"⟩
    ∧ (e.pathParameters = none → rawMood e = "neutral") := by
  obtain ⟨pp, bd⟩ := e
  cases pp with
  | none => exact ⟨rfl, fun _ => rfl⟩
  | some od =>
      cases od with
      | none => exact absurd rfl hp
      | some d => exact ⟨rfl, fun h => nomatch h⟩

/-- Witness for C4 at the event with no path parameters. -/
theorem C4_read_handler_witness :
    emojiGetHandler ⟨none, none⟩ = Except.ok ⟨200, some ctJson,
      "\x7b\"mood\": \"" ++ rawMood ⟨none, none⟩ ++ "\", \"emoji\": \""
        ++ registryLookup (normalize (rawMood ⟨none, none⟩)) ++ "\"\x7d"⟩ :=
  (C4_read_handler ⟨none, none⟩ (by decide)).1

/-- The field of given name inside the decoded JSON body of a response. -/
def bodyJsonField (r : Response) (k : String) : Option Json :=
  match jsonLoads r.body with
  | some (Json.obj fs) => objGet fs k
  | _ => none

/-- The concrete Write Handler scenario of the design document: path
parameter mood sad, body carrying the skull emoji. -/
def c2Event : Event :=
  ⟨some (some [("mood", "sad")]), some (some ("\x7b\"emoji\": \"💀\"\x7d"))⟩

/-- Claim C2: on the sad-mood skull-body event the PUT emoji handler
returns 200 and its JSON body carries the pre-update sad glyph as
previous_emoji and the skull as updated_emoji; the reported previous
glyph is exactly the registry lookup of the normalized mood. -/
theorem C2_write_handler_success :
    (putEmojiHandler c2Event).map
      (fun r => (r.statusCode, bodyJsonField r ("previous_emoji"),
        bodyJsonField r ("updated_emoji")))
      = Except.ok (200, some (Json.str ("😢")), some (Json.str ("💀")))
    ∧ registryLookup (normalize ("sad")) = "😢" :=
  ⟨rfl, rfl⟩

/-! ## More helper lemmas for the remaining claims -/

/-- The raw user string the hello handlers extract, for events whose
pathParameters key is absent or bound to a dict. -/
def rawUser (e : Event) : String :=
  match e.pathParameters with
  | some (some d) => dictGet d ("user") ("Anonymous")
  | _ => "Anonymous"

/-- The arithmetic handler, rewritten as a dispatch on the two parses,
for events whose pathParameters key is absent or bound to a dict. -/
theorem addHandler_eq (e : Event) (hp : e.pathParameters ≠ some none) :
    addHandler e =
      match pyFloat (paramOrNone e ("a")) with
      | Except.error msg => Except.ok (addErrResp msg)
      | Except.ok a =>
        match pyFloat (paramOrNone e ("b")) with
        | Except.error msg => Except.ok (addErrResp msg)
        | Except.ok b => Except.ok (addOkResp a b) := by
  obtain ⟨pp, bd⟩ := e
  cases pp with
  | none => rfl
  | some od =>
      cases od with
      | none => exact absurd rfl hp
      | some d => rfl

/-- The decoded-body dispatch of the hello POST handler. -/
def helloDispatch (u : String) (o : Option Json) : Except PyError Response :=
  match o with
  | none => Except.ok helloPostInvalidResp
  | some (Json.obj fs) => Except.ok (helloPostOkResp u (helloMsg fs))
  | some _ => Except.error PyError.attributeError

/-- The hello POST handler, rewritten as a single dispatch on the decoded
body, for events whose fields are absent or well typed. -/
theorem helloPostHandler_eq (e : Event) (hp : e.pathParameters ≠ some none)
    (hb : e.body ≠ some none) :
    helloPostHandler e =
      helloDispatch (rawUser e) (jsonLoads (pyEffectiveBody e)) := by
  obtain ⟨pp, bd⟩ := e
  cases pp with
  | none =>
      cases bd with
      | none => rfl
      | some ob =>
          cases ob with
          | none => exact absurd rfl hb
          | some s => rfl
  | some od =>
      cases od with
      | none => exact absurd rfl hp
      | some d =>
          cases bd with
          | none => rfl
          | some ob =>
              cases ob with
              | none => exact absurd rfl hb
              | some s => rfl

theorem emojiGet_returns (e : Event) (hp : e.pathParameters ≠ some none) :
    returnsResponse (emojiGetHandler e) = true := by
  obtain ⟨pp, bd⟩ := e
  cases pp with
  | none => rfl
  | some od =>
      cases od with
      | none => exact absurd rfl hp
      | some d => rfl

theorem helloGet_returns (e : Event) (hp : e.pathParameters ≠ some none) :
    returnsResponse (helloGetHandler e) = true := by
  obtain ⟨pp, bd⟩ := e
  cases pp with
  | none => rfl
  | some od =>
      cases od with
      | none => exact absurd rfl hp
      | some d => rfl

theorem cow_returns (e : Event) (hp : e.pathParameters ≠ some none) :
    returnsResponse (cowHandler e) = true := by
  obtain ⟨pp, bd⟩ := e
  cases pp with
  | none => rfl
  | some od =>
      cases od with
      | none => exact absurd rfl hp
      | some d => rfl

theorem add_returns (e : Event) (hp : e.pathParameters ≠ some none) :
    returnsResponse (addHandler e) = true := by
  rw [addHandler_eq e hp]
  cases pyFloat (paramOrNone e ("a")) with
  | error m => rfl
  | ok a =>
      cases pyFloat (paramOrNone e ("b")) with
      | error m => rfl
      | ok b => rfl

theorem putBodyCase_returns (m c : String) (fs : List (String × Json)) :
    returnsResponse (putBodyCase m c fs) = true := by
  unfold putBodyCase
  cases objGet fs ("emoji") with
  | none => rfl
  | some ce => cases ht : jsonTruthy ce <;> simp [ht, returnsResponse]

theorem put_returns (e : Event) (hp : e.pathParameters ≠ some none)
    (hb : e.body ≠ some none)
    (hobj : loadsObjOrFails (pyEffectiveBody e) = true) :
    returnsResponse (putEmojiHandler e) = true := by
  rw [putEmojiHandler_eq e hp hb]
  cases hj : jsonLoads (pyEffectiveBody e) with
  | none => rfl
  | some j =>
      cases j with
      | obj fs => exact putBodyCase_returns (rawMood e) (get_emoji (rawMood e)) fs
      | null => simp [loadsObjOrFails, hj] at hobj
      | bool b => simp [loadsObjOrFails, hj] at hobj
      | num q => simp [loadsObjOrFails, hj] at hobj
      | str s => simp [loadsObjOrFails, hj] at hobj
      | arr xs => simp [loadsObjOrFails, hj] at hobj

theorem helloPost_returns (e : Event) (hp : e.pathParameters ≠ some none)
    (hb : e.body ≠ some none)
    (hobj : loadsObjOrFails (pyEffectiveBody e) = true) :
    returnsResponse (helloPostHandler e) = true := by
  rw [helloPostHandler_eq e hp hb]
  cases hj : jsonLoads (pyEffectiveBody e) with
  | none => rfl
  | some j =>
      cases j with
      | obj fs => rfl
      | null => simp [loadsObjOrFails, hj] at hobj
      | bool b => simp [loadsObjOrFails, hj] at hobj
      | num q => simp [loadsObjOrFails, hj] at hobj
      | str s => simp [loadsObjOrFails, hj] at hobj
      | arr xs => simp [loadsObjOrFails, hj] at hobj

/-- Claim C1 counterexample: an event whose body key is bound to None
reaches json.loads with None, whose TypeError is not in the except clause
of the PUT emoji handler, so the exception escapes the invocation instead
of becoming a structured error response. -/
theorem C1_counterexample :
    putEmojiHandler ⟨none, some none⟩ = Except.error PyError.typeError := rfl

/-- Claim C1, amended: for events whose pathParameters and body keys,
when present, are bound to well-typed values (a dict, a string) and whose
body text decodes to a JSON object whenever it decodes at all, every
handler invocation returns a structured response; the guarded failures
(undecodable JSON body, non-numeric input, absent keys) are converted to
error responses and no exception escapes. -/
theorem C1_no_exception_escapes (e : Event)
    (hp : e.pathParameters ≠ some none) (hb : e.body ≠ some none)
    (hobj : loadsObjOrFails (pyEffectiveBody e) = true) :
    returnsResponse (emojiGetHandler e) = true
    ∧ returnsResponse (putEmojiHandler e) = true
    ∧ returnsResponse (helloGetHandler e) = true
    ∧ returnsResponse (helloPostHandler e) = true
    ∧ returnsResponse (addHandler e) = true
    ∧ returnsResponse (cowHandler e) = true :=
  ⟨emojiGet_returns e hp, put_returns e hp hb hobj, helloGet_returns e hp,
    helloPost_returns e hp hb hobj, add_returns e hp, cow_returns e hp⟩

/-- The event used to witness the amended claim C1. -/
def c1Event : Event :=
  ⟨some (some [("mood", "happy"), ("user", "Ada"), ("a", "1"), ("b", "2"),
    ("text", "hi")]),
   some (some ("\x7b\"emoji\": \"🎉\"\x7d"))⟩

/-- Witness for the amended claim C1 at a fully populated event. -/
theorem C1_no_exception_escapes_witness :
    returnsResponse (emojiGetHandler c1Event) = true
    ∧ returnsResponse (putEmojiHandler c1Event) = true
    ∧ returnsResponse (helloGetHandler c1Event) = true
    ∧ returnsResponse (helloPostHandler c1Event) = true
    ∧ returnsResponse (addHandler c1Event) = true
    ∧ returnsResponse (cowHandler c1Event) = true :=
  C1_no_exception_escapes c1Event (by decide) (by decide) (by decide)

/-- Claim C3 counterexample: a body decoding to a JSON value that is not
an object (here null, whose emoji field is certainly absent) makes the
PUT emoji handler raise AttributeError on the get call instead of
returning the missing-field 400 response. -/
theorem C3_counterexample :
    putEmojiHandler ⟨none, some (some ("null"))⟩
        = Except.error PyError.attributeError
    ∧ jsonLoads ("null") = some Json.null :=
  ⟨rfl, rfl⟩

/-- Claim C3, amended: for events with well-typed fields, the PUT emoji
handler answers the invalid-JSON 400 response exactly when the body text
fails to decode; when the body decodes to a JSON object it answers the
missing-field 400 response exactly when the emoji member is absent or
falsy; these are the only 400 responses, but a body decoding to a
non-object JSON value raises instead of producing the missing-field
response. -/
theorem C3_error_branches (e : Event) (hp : e.pathParameters ≠ some none)
    (hb : e.body ≠ some none) :
    (putEmojiHandler e = Except.ok invalidJsonResp
      ↔ jsonLoads (pyEffectiveBody e) = none)
    ∧ (∀ fs, jsonLoads (pyEffectiveBody e) = some (Json.obj fs) →
        (putEmojiHandler e = Except.ok missingEmojiResp
          ↔ pyTruthy (objGet fs ("emoji")) = false))
    ∧ (∀ r, putEmojiHandler e = Except.ok r → r.statusCode = 400 →
        r = invalidJsonResp ∨ r = missingEmojiResp) := by
  rw [putEmojiHandler_eq e hp hb]
  cases hj : jsonLoads (pyEffectiveBody e) with
  | none =>
      refine ⟨by constructor <;> intro h <;> rfl, ?_, ?_⟩
      · intro fs h
        exact Option.noConfusion h
      · intro r hr _
        injection hr with h2
        exact Or.inl h2.symm
  | some j =>
      cases j with
      | obj fs =>
          have hred : putDispatch (rawMood e) (get_emoji (rawMood e))
              (some (Json.obj fs))
              = putBodyCase (rawMood e) (get_emoji (rawMood e)) fs := rfl
          rw [hred]
          cases hg : objGet fs ("emoji") with
          | none =>
              have hb2 : putBodyCase (rawMood e) (get_emoji (rawMood e)) fs
                  = Except.ok missingEmojiResp := by
                unfold putBodyCase
                rw [hg]
              rw [hb2]
              refine ⟨?_, ?_, ?_⟩
              · constructor
                · intro h
                  injection h with h2
                  exact absurd h2 missing_ne_invalid
                · intro h
                  exact Option.noConfusion h
              · intro fs2 h
                injection h with h2
                injection h2 with h3
                subst h3
                rw [hg]
                simp [pyTruthy]
              · intro r hr _
                injection hr with h2
                exact Or.inr h2.symm
          | some ce =>
              have hb2 : putBodyCase (rawMood e) (get_emoji (rawMood e)) fs
                  = if jsonTruthy ce then
                      Except.ok (putOkResp (rawMood e) (get_emoji (rawMood e)) ce)
                    else Except.ok missingEmojiResp := by
                unfold putBodyCase
                rw [hg]
              rw [hb2]
              cases ht : jsonTruthy ce with
              | true =>
                  rw [if_pos rfl]
                  refine ⟨?_, ?_, ?_⟩
                  · constructor
                    · intro h
                      injection h with h2
                      exact absurd h2 (putOk_ne_invalid _ _ _)
                    · intro h
                      exact Option.noConfusion h
                  · intro fs2 h
                    injection h with h2
                    injection h2 with h3
                    subst h3
                    rw [hg]
                    constructor
                    · intro h
                      injection h with h4
                      exact absurd h4 (putOk_ne_missing _ _ _)
                    · intro h
                      replace h : jsonTruthy ce = false := h
                      rw [ht] at h
                      exact Bool.noConfusion h
                  · intro r hr hsc
                    injection hr with h2
                    rw [← h2] at hsc
                    rw [putOk_statusCode] at hsc
                    exact absurd hsc (by decide)
              | false =>
                  rw [if_neg Bool.false_ne_true]
                  refine ⟨?_, ?_, ?_⟩
                  · constructor
                    · intro h
                      injection h with h2
                      exact absurd h2 missing_ne_invalid
                    · intro h
                      exact Option.noConfusion h
                  · intro fs2 h
                    injection h with h2
                    injection h2 with h3
                    subst h3
                    rw [hg]
                    simp [pyTruthy, ht]
                  · intro r hr _
                    injection hr with h2
                    exact Or.inr h2.symm
      | null =>
          exact ⟨⟨fun h => Except.noConfusion h, fun h => Option.noConfusion h⟩,
            fun fs h => by injection h with h2; exact Json.noConfusion h2,
            fun r hr _ => Except.noConfusion hr⟩
      | bool b =>
          exact ⟨⟨fun h => Except.noConfusion h, fun h => Option.noConfusion h⟩,
            fun fs h => by injection h with h2; exact Json.noConfusion h2,
            fun r hr _ => Except.noConfusion hr⟩
      | num q =>
          exact ⟨⟨fun h => Except.noConfusion h, fun h => Option.noConfusion h⟩,
            fun fs h => by injection h with h2; exact Json.noConfusion h2,
            fun r hr _ => Except.noConfusion hr⟩
      | str s =>
          exact ⟨⟨fun h => Except.noConfusion h, fun h => Option.noConfusion h⟩,
            fun fs h => by injection h with h2; exact Json.noConfusion h2,
            fun r hr _ => Except.noConfusion hr⟩
      | arr xs =>
          exact ⟨⟨fun h => Except.noConfusion h, fun h => Option.noConfusion h⟩,
            fun fs h => by injection h with h2; exact Json.noConfusion h2,
            fun r hr _ => Except.noConfusion hr⟩

/-- Witness for the amended claim C3: the undecodable body of the design
document's test vector takes the invalid-JSON branch. -/
theorem C3_error_branches_witness :
    putEmojiHandler ⟨none, some (some ("not json"))⟩ = Except.ok invalidJsonResp
      ↔ jsonLoads (pyEffectiveBody ⟨none, some (some ("not json"))⟩) = none :=
  (C3_error_branches ⟨none, some (some ("not json"))⟩ (by decide) (by decide)).1

/-- Claim C5: for events whose path parameters are a dict or absent, the
arithmetic handler returns 200 with a body carrying both parsed operands
and their sum when both parse, and a 400 response embedding the parse
failure text as soon as one parse fails (the first failing parameter
wins, as in the source). -/
theorem C5_arithmetic_handler (e : Event)
    (hp : e.pathParameters ≠ some none) :
    (∀ m, pyFloat (paramOrNone e ("a")) = Except.error m →
        addHandler e = Except.ok (addErrResp m))
    ∧ (∀ a m, pyFloat (paramOrNone e ("a")) = Except.ok a →
        pyFloat (paramOrNone e ("b")) = Except.error m →
        addHandler e = Except.ok (addErrResp m))
    ∧ (∀ a b, pyFloat (paramOrNone e ("a")) = Except.ok a →
        pyFloat (paramOrNone e ("b")) = Except.ok b →
        addHandler e = Except.ok (addOkResp a b)) := by
  refine ⟨?_, ?_, ?_⟩
  · intro m hm
    rw [addHandler_eq e hp, hm]
  · intro a m ha hm
    rw [addHandler_eq e hp, ha, hm]
  · intro a b ha hbq
    rw [addHandler_eq e hp, ha, hbq]

/-- Witness for C5 at an event with no path parameters: both operands
default to 0 and the handler answers the 200 response for 0 and 0. -/
theorem C5_arithmetic_handler_witness :
    addHandler ⟨none, none⟩ = Except.ok (addOkResp 0 0) :=
  (C5_arithmetic_handler ⟨none, none⟩ (by decide)).2.2 0 0 rfl rfl

/-- Claim C8 counterexample: the invalid-JSON 400 response of the hello
POST handler has no headers key, so not every response has the
statusCode-headers-body shape. -/
theorem C8_counterexample :
    (helloPostHandler ⟨none, some (some ("not json"))⟩).map Response.headers
      = Except.ok none := rfl

/-- The only response values the PUT emoji handler can produce, for
events with well-typed fields. -/
theorem putEmojiHandler_ok_shape (e : Event) (hp : e.pathParameters ≠ some none)
    (hb : e.body ≠ some none) (r : Response)
    (h : putEmojiHandler e = Except.ok r) :
    r = invalidJsonResp ∨ r = missingEmojiResp
    ∨ ∃ m c ce, r = putOkResp m c ce := by
  rw [putEmojiHandler_eq e hp hb] at h
  cases hj : jsonLoads (pyEffectiveBody e) with
  | none =>
      rw [hj] at h
      injection h with h2
      exact Or.inl h2.symm
  | some j =>
      rw [hj] at h
      cases j with
      | obj fs =>
          replace h : putBodyCase (rawMood e) (get_emoji (rawMood e)) fs
              = Except.ok r := h
          unfold putBodyCase at h
          cases hg : objGet fs ("emoji") with
          | none =>
              rw [hg] at h
              injection h with h2
              exact Or.inr (Or.inl h2.symm)
          | some ce =>
              rw [hg] at h
              replace h : (if jsonTruthy ce then
                    Except.ok (putOkResp (rawMood e) (get_emoji (rawMood e)) ce)
                  else Except.ok missingEmojiResp) = Except.ok r := h
              cases ht : jsonTruthy ce with
              | true =>
                  rw [if_pos ht] at h
                  injection h with h2
                  exact Or.inr (Or.inr ⟨_, _, _, h2.symm⟩)
              | false =>
                  rw [if_neg (by rw [ht]; exact Bool.false_ne_true)] at h
                  injection h with h2
                  exact Or.inr (Or.inl h2.symm)
      | null => exact Except.noConfusion h
      | bool b => exact Except.noConfusion h
      | num q => exact Except.noConfusion h
      | str s => exact Except.noConfusion h
      | arr xs => exact Except.noConfusion h

/-- The only response values the hello POST handler can produce, for
events with well-typed fields. -/
theorem helloPost_ok_shape (e : Event) (hp : e.pathParameters ≠ some none)
    (hb : e.body ≠ some none) (r : Response)
    (h : helloPostHandler e = Except.ok r) :
    r = helloPostInvalidResp ∨ ∃ u m, r = helloPostOkResp u m := by
  rw [helloPostHandler_eq e hp hb] at h
  cases hj : jsonLoads (pyEffectiveBody e) with
  | none =>
      rw [hj] at h
      injection h with h2
      exact Or.inl h2.symm
  | some j =>
      rw [hj] at h
      cases j with
      | obj fs =>
          injection h with h2
          exact Or.inr ⟨_, _, h2.symm⟩
      | null => exact Except.noConfusion h
      | bool b => exact Except.noConfusion h
      | num q => exact Except.noConfusion h
      | str s => exact Except.noConfusion h
      | arr xs => exact Except.noConfusion h

theorem C8_emojiGet_headers (e : Event) :
    ∀ r, emojiGetHandler e = Except.ok r → r.headers = some ctJson := by
  obtain ⟨pp, bd⟩ := e
  intro r hr
  cases pp with
  | none =>
      injection hr with h2
      rw [← h2]
  | some od =>
      cases od with
      | none => exact Except.noConfusion hr
      | some d =>
          injection hr with h2
          rw [← h2]

theorem C8_helloGet_headers (e : Event) :
    ∀ r, helloGetHandler e = Except.ok r → r.headers = some ctJson := by
  obtain ⟨pp, bd⟩ := e
  intro r hr
  cases pp with
  | none =>
      injection hr with h2
      rw [← h2]
  | some od =>
      cases od with
      | none => exact Except.noConfusion hr
      | some d =>
          injection hr with h2
          rw [← h2]

theorem C8_cow_headers (e : Event) :
    ∀ r, cowHandler e = Except.ok r →
      r.headers = some ([("Content-Type", "text/plain")]) := by
  obtain ⟨pp, bd⟩ := e
  intro r hr
  cases pp with
  | none =>
      injection hr with h2
      rw [← h2]
  | some od =>
      cases od with
      | none => exact Except.noConfusion hr
      | some d =>
          injection hr with h2
          rw [← h2]

theorem C8_add_headers (e : Event) :
    ∀ r, addHandler e = Except.ok r → r.headers = some ctJson := by
  intro r hr
  rcases hpp : e.pathParameters with _ | op
  · rw [addHandler_eq e (by rw [hpp]; simp)] at hr
    cases h1 : pyFloat (paramOrNone e ("a")) with
    | error m =>
        rw [h1] at hr
        injection hr with h2
        rw [← h2]
        exact rfl
    | ok a =>
        rw [h1] at hr
        cases h2 : pyFloat (paramOrNone e ("b")) with
        | error m =>
            rw [h2] at hr
            injection hr with h3
            rw [← h3]
            exact rfl
        | ok b =>
            rw [h2] at hr
            injection hr with h3
            rw [← h3]
            exact rfl
  · rcases op with _ | d
    · rw [show e = ⟨some none, e.body⟩ from by cases e; cases hpp; rfl] at hr
      exact Except.noConfusion hr
    · rw [addHandler_eq e (by rw [hpp]; simp)] at hr
      cases h1 : pyFloat (paramOrNone e ("a")) with
      | error m =>
          rw [h1] at hr
          injection hr with h2
          rw [← h2]
          exact rfl
      | ok a =>
          rw [h1] at hr
          cases h2 : pyFloat (paramOrNone e ("b")) with
          | error m =>
              rw [h2] at hr
              injection hr with h3
              rw [← h3]
              exact rfl
          | ok b =>
              rw [h2] at hr
              injection hr with h3
              rw [← h3]
              exact rfl

theorem C8_put_headers (e : Event) :
    ∀ r, putEmojiHandler e = Except.ok r → r.headers = some ctJson := by
  obtain ⟨pp, bd⟩ := e
  intro r hr
  have hshape : r = invalidJsonResp ∨ r = missingEmojiResp
      ∨ ∃ m c ce, r = putOkResp m c ce := by
    cases pp with
    | some od =>
        cases od with
        | none => exact Except.noConfusion hr
        | some d =>
            cases bd with
            | none => exact putEmojiHandler_ok_shape _ (by simp) (by simp) r hr
            | some ob =>
                cases ob with
                | none => exact Except.noConfusion hr
                | some s => exact putEmojiHandler_ok_shape _ (by simp) (by simp) r hr
    | none =>
        cases bd with
        | none => exact putEmojiHandler_ok_shape _ (by simp) (by simp) r hr
        | some ob =>
            cases ob with
            | none => exact Except.noConfusion hr
            | some s => exact putEmojiHandler_ok_shape _ (by simp) (by simp) r hr
  rcases hshape with h | h | ⟨m, c, ce, h⟩ <;> rw [h] <;> rfl

theorem C8_helloPost_headers (e : Event) :
    ∀ r, helloPostHandler e = Except.ok r →
      r.headers = some ctJson
      ∨ (r.statusCode = 400 ∧ r.headers = none ∧ r = helloPostInvalidResp) := by
  obtain ⟨pp, bd⟩ := e
  intro r hr
  have hshape : r = helloPostInvalidResp ∨ ∃ u m, r = helloPostOkResp u m := by
    cases pp with
    | some od =>
        cases od with
        | none => exact Except.noConfusion hr
        | some d =>
            cases bd with
            | none => exact helloPost_ok_shape _ (by simp) (by simp) r hr
            | some ob =>
                cases ob with
                | none => exact Except.noConfusion hr
                | some s => exact helloPost_ok_shape _ (by simp) (by simp) r hr
    | none =>
        cases bd with
        | none => exact helloPost_ok_shape _ (by simp) (by simp) r hr
        | some ob =>
            cases ob with
            | none => exact Except.noConfusion hr
            | some s => exact helloPost_ok_shape _ (by simp) (by simp) r hr
  rcases hshape with h | ⟨u, m, h⟩
  · exact Or.inr ⟨by rw [h]; rfl, by rw [h]; rfl, h⟩
  · exact Or.inl (by rw [h]; rfl)

/-- Claim C8, amended: every response of every handler has an integer
statusCode and a string body, and carries the appropriate headers dict,
except the invalid-JSON 400 response of the hello POST handler, whose
dict literal omits the headers key. -/
theorem C8_response_shape (e : Event) :
    (∀ r, emojiGetHandler e = Except.ok r → r.headers = some ctJson)
    ∧ (∀ r, putEmojiHandler e = Except.ok r → r.headers = some ctJson)
    ∧ (∀ r, helloGetHandler e = Except.ok r → r.headers = some ctJson)
    ∧ (∀ r, addHandler e = Except.ok r → r.headers = some ctJson)
    ∧ (∀ r, cowHandler e = Except.ok r →
        r.headers = some ([("Content-Type", "text/plain")]))
    ∧ (∀ r, helloPostHandler e = Except.ok r →
        r.headers = some ctJson
        ∨ (r.statusCode = 400 ∧ r.headers = none ∧ r = helloPostInvalidResp)) :=
  ⟨C8_emojiGet_headers e, C8_put_headers e, C8_helloGet_headers e,
    C8_add_headers e, C8_cow_headers e, C8_helloPost_headers e⟩

/-- Witness for the amended claim C8 at the hello GET handler with no
path parameters. -/
theorem C8_response_shape_witness :
    (⟨200, some ctJson, "\x7b\"message\": \"Hello, Anonymous!\"\x7d"⟩ : Response).headers
      = some ctJson :=
  (C8_response_shape ⟨none, none⟩).2.2.1
    ⟨200, some ctJson, "\x7b\"message\": \"Hello, Anonymous!\"\x7d"⟩ rfl

end Lambify
